import Mathlib

/-!
Verification of the Email Retrieval & Prioritization Engine.

This file gives a shallow embedding, in Lean 4, of the algorithmic core of
the email-agent repository (`email_agent/tools/__init__.py` and
`email_agent/attachments.py`): the relative-date normalizer, the attachment
relevance filters, the query builder, the conversation/thread aggregator,
the categorizer fallback, the priority scorer and the attachment content
search post-processing.  Python strings are modelled as Lean `String`
(lists of characters), Python integers as `Int`/`Nat`, Python dictionaries
as Lean structures, and fallible external calls (the LLM classification
call) as explicit `Option` results.  Theorems at the end of the file settle
the specification claims against these definitions.
-/

set_option maxRecDepth 10000

/-! ## Python string primitives

Embeddings of the Python `str` operations used by the source:
`.lower()`, `.upper()`, `.strip()`, the `in` containment operator,
`.startswith`, `.find`, and lexicographic comparison (used by `list.sort`
with a string key). All operate on code points, as CPython does. -/

/-- Code-point test for an ASCII digit (`0`-`9`). -/
def isDigitChar (c : Char) : Bool := 48 ≤ c.toNat && c.toNat ≤ 57

/-- Code-point test for the whitespace characters stripped by Python
`str.strip()` (space, tab, newline, carriage return, vertical tab, form feed). -/
def isSpaceChar (c : Char) : Bool :=
  c.toNat = 32 || c.toNat = 9 || c.toNat = 10 || c.toNat = 13 || c.toNat = 11 || c.toNat = 12

/-- ASCII alphanumeric test. -/
def isAlnumChar (c : Char) : Bool :=
  isDigitChar c || (65 ≤ c.toNat && c.toNat ≤ 90) || (97 ≤ c.toNat && c.toNat ≤ 122)

/-- ASCII case folding of one character, as Python `str.lower()` does for
the ASCII range. -/
def pyLowerChar (c : Char) : Char :=
  if 65 ≤ c.toNat ∧ c.toNat ≤ 90 then Char.ofNat (c.toNat + 32) else c

/-- ASCII upper-casing of one character, as Python `str.upper()` does for
the ASCII range. -/
def pyUpperChar (c : Char) : Char :=
  if 97 ≤ c.toNat ∧ c.toNat ≤ 122 then Char.ofNat (c.toNat - 32) else c

/-- Python `s.lower()`. -/
def pyLower (s : String) : String := String.mk (s.toList.map pyLowerChar)

/-- Python `s.upper()`. -/
def pyUpper (s : String) : String := String.mk (s.toList.map pyUpperChar)

/-- Python `s.strip()`: drop leading and trailing whitespace. -/
def pyStrip (s : String) : String :=
  String.mk (((s.toList.dropWhile isSpaceChar).reverse.dropWhile isSpaceChar).reverse)

/-- Consume the literal `lit` from the front of `cs`; return the rest on
success.  Building block for the anchored `re.match` patterns of the source. -/
def consumeLit : List Char → List Char → Option (List Char)
  | [], cs => some cs
  | _ :: _, [] => none
  | l :: ls, c :: cs => if c = l then consumeLit ls cs else none

/-- `listStartsWith pre cs`: does `cs` start with `pre`? -/
def listStartsWith (pre cs : List Char) : Bool := (consumeLit pre cs).isSome

/-- Python `s.startswith(pre)`. -/
def pyStartsWith (s pre : String) : Bool := listStartsWith pre.toList s.toList

/-- Does `needle` occur as a contiguous sublist of `hay`?  Embeds the Python
`needle in hay` operator on strings. -/
def containsSub (needle : List Char) : List Char → Bool
  | [] => needle.isEmpty
  | c :: cs => listStartsWith needle (c :: cs) || containsSub needle cs

/-- Python `needle in hay` on strings. -/
def strContains (hay needle : String) : Bool := containsSub needle.toList hay.toList

/-- Index of the first occurrence of `needle` in `hay` (Python `hay.find(needle)`,
with `none` for `-1`). -/
def firstIndexOfSub (needle : List Char) : List Char → Option Nat
  | [] => if needle.isEmpty then some 0 else none
  | c :: cs =>
    if listStartsWith needle (c :: cs) then some 0
    else (firstIndexOfSub needle cs).map (· + 1)

/-- Lexicographic `≤` on code-point lists: Python string comparison. -/
def listLe : List Char → List Char → Bool
  | [], _ => true
  | _ :: _, [] => false
  | a :: as, b :: bs =>
    if a.toNat < b.toNat then true
    else if b.toNat < a.toNat then false
    else listLe as bs

/-- Python `a <= b` on strings. -/
def pyStrLe (a b : String) : Bool := listLe a.toList b.toList

/-! ## Attachment relevance filters

Two near-identical copies of `is_relevant_attachment` exist in the source:
one in `email_agent/attachments.py` and one in
`email_agent/tools/__init__.py`.  They share the decorative MIME set, the
decorative filename patterns and the document-extension allowlist, and
differ only in the "meaningful words" list of the image rule (the
`attachments.py` copy also lists `screenshot`). -/

/-- `SKIP_ATTACHMENT_MIMES` (identical in both source files). -/
def SKIP_ATTACHMENT_MIMES : List String := ["image/gif", "image/x-icon", "image/bmp"]

/-- The anchored pattern `^image\d*\.`: `image`, any run of digits, then a dot. -/
def matchesImageNumDot (cs : List Char) : Bool :=
  match consumeLit "image".toList cs with
  | none => false
  | some rest =>
    match rest.dropWhile isDigitChar with
    | [] => false
    | c :: _ => c = '.'

/-- `SKIP_ATTACHMENT_PATTERNS` applied with `re.match` (all patterns are
therefore anchored at the start of the lower-cased filename; identical list
in both source files). -/
def matchesSkipPattern (cs : List Char) : Bool :=
  matchesImageNumDot cs ||
  listStartsWith "logo".toList cs ||
  listStartsWith "signature".toList cs ||
  listStartsWith "icon".toList cs ||
  listStartsWith "banner".toList cs ||
  listStartsWith "footer".toList cs ||
  listStartsWith "header".toList cs ||
  listStartsWith "_signature.".toList cs ||
  listStartsWith "_logo.".toList cs

/-- The document-extension allowlist (identical in both source files). -/
def relevant_extensions : List String :=
  [".pdf", ".doc", ".docx", ".xls", ".xlsx", ".csv", ".txt",
   ".ppt", ".pptx", ".rtf", ".odt", ".ods", ".zip", ".rar"]

/-- `"." + filename_lower.rsplit(".", 1)[-1] if "." in filename_lower else ""`:
the extension is the dot plus everything after the last dot, or empty when
there is no dot. -/
def extOf (s : String) : String :=
  if s.toList.contains '.' then
    String.mk ('.' :: ((s.toList.reverse.takeWhile (fun c => ¬ c = '.')).reverse))
  else ""

/-- Meaningful-word list of the image rule in `tools/__init__.py`
(six words; `screenshot` is absent in this copy). -/
def meaningful_words_tools : List String :=
  ["invoice", "receipt", "document", "scan", "contract", "report"]

/-- Meaningful-word list of the image rule in `attachments.py`
(seven words, including `screenshot`). -/
def meaningful_words_attachments : List String :=
  ["invoice", "receipt", "document", "scan", "contract", "report", "screenshot"]

/-- `is_relevant_attachment` from `email_agent/tools/__init__.py`. -/
def tools_is_relevant_attachment (filename mime_type : String) : Bool :=
  if filename = "" then false
  else
    let filename_lower := pyLower filename
    if SKIP_ATTACHMENT_MIMES.contains mime_type then false
    else if matchesSkipPattern filename_lower.toList then false
    else if relevant_extensions.contains (extOf filename_lower) then true
    else if pyStartsWith mime_type "image/" then
      if filename_lower.length < 10 then false
      else meaningful_words_tools.any (fun w => strContains filename_lower w)
    else true

/-- `is_relevant_attachment` from `email_agent/attachments.py`. -/
def attachments_is_relevant_attachment (filename mime_type : String) : Bool :=
  if filename = "" then false
  else
    let filename_lower := pyLower filename
    if SKIP_ATTACHMENT_MIMES.contains mime_type then false
    else if matchesSkipPattern filename_lower.toList then false
    else if relevant_extensions.contains (extOf filename_lower) then true
    else if pyStartsWith mime_type "image/" then
      if filename_lower.length < 10 then false
      else meaningful_words_attachments.any (fun w => strContains filename_lower w)
    else true

/-! An ordered rule chain with first-match-wins evaluation, used to state
that the filter applies its rules in the order of spec §4.2. -/

/-- Evaluate an ordered list of rules; the first rule that fires decides,
otherwise the default applies. -/
def ruleChainEval (rules : List (String → String → Option Bool)) (dflt : Bool)
    (filename mime_type : String) : Bool :=
  match rules with
  | [] => dflt
  | r :: rs =>
    match r filename mime_type with
    | some b => b
    | none => ruleChainEval rs dflt filename mime_type

/-- Rule 1 of §4.2: empty filename is never relevant. -/
def rule_empty_filename (filename _mime : String) : Option Bool :=
  if filename = "" then some false else none

/-- Rule 2 of §4.2: decorative MIME types are never relevant. -/
def rule_skip_mime (_filename mime : String) : Option Bool :=
  if SKIP_ATTACHMENT_MIMES.contains mime then some false else none

/-- Rule 3 of §4.2: decorative filename patterns are never relevant. -/
def rule_skip_pattern (filename _mime : String) : Option Bool :=
  if matchesSkipPattern (pyLower filename).toList then some false else none

/-- Rule 4 of §4.2: the document-extension allowlist is always relevant. -/
def rule_document_ext (filename _mime : String) : Option Bool :=
  if relevant_extensions.contains (extOf (pyLower filename)) then some true else none

/-- Rule 5 of §4.2: an `image/*` attachment is relevant iff the lower-cased
filename has length at least 10 and contains a meaningful word. -/
def rule_image (words : List String) (filename mime : String) : Option Bool :=
  if pyStartsWith mime "image/" then
    some (decide (10 ≤ (pyLower filename).length) &&
      words.any (fun w => strContains (pyLower filename) w))
  else none

/-! ## Relative date normalizer (`parse_relative_date`)

The source reads the current local date with `datetime.now()`; the clock is
embedded as an explicit `today` parameter, a day count since the Unix epoch
(1970-01-01), and `timedelta` subtraction becomes integer subtraction on
day counts.  `strftime("%Y-%m-%d")` becomes `formatDate`. -/

/-- Convert a day number to a Gregorian `(year, month, day)` triple
(standard civil-from-days algorithm; `/` on `Int` is Euclidean division,
which agrees with floor division here because all divisors are positive). -/
def civilFromDays (z : Int) : Int × Int × Int :=
  let z2 := z + 719468
  let era := z2 / 146097
  let doe := z2 - era * 146097
  let yoe := (doe - doe / 1460 + doe / 36524 - doe / 146096) / 365
  let y := yoe + era * 400
  let doy := doe - (365 * yoe + yoe / 4 - yoe / 100)
  let mp := (5 * doy + 2) / 153
  let d := doy - (153 * mp + 2) / 5 + 1
  let m := mp + (if mp < 10 then 3 else -9)
  (y + (if m ≤ 2 then 1 else 0), m, d)

/-- Zero-pad a (non-negative) number to the given width. -/
def padNum (width : Nat) (n : Int) : String :=
  let s := toString n
  String.mk (List.replicate (width - s.length) '0') ++ s

/-- `strftime("%Y-%m-%d")` on a day number. -/
def formatDate (z : Int) : String :=
  let c := civilFromDays z
  padNum 4 c.1 ++ "-" ++ padNum 2 c.2.1 ++ "-" ++ padNum 2 c.2.2

/-- The anchored regex `^\d{4}-\d{2}-\d{2}$`. -/
def matchesYMD : List Char → Bool
  | [a, b, c, d, e, f, g, h, i, j] =>
    isDigitChar a && isDigitChar b && isDigitChar c && isDigitChar d &&
    e = '-' && isDigitChar f && isDigitChar g &&
    h = '-' && isDigitChar i && isDigitChar j
  | _ => false

/-- Consume one-or-more whitespace characters (regex `\s+`). -/
def dropSpaces1 : List Char → Option (List Char)
  | [] => none
  | c :: cs => if isSpaceChar c then some (cs.dropWhile isSpaceChar) else none

/-- Numeric value of a digit run. -/
def digitsToNat (ds : List Char) : Nat :=
  ds.foldl (fun a c => 10 * a + (c.toNat - 48)) 0

/-- Consume one-or-more digits (regex `(\d+)`), returning the captured value. -/
def takeDigits1 (cs : List Char) : Option (Nat × List Char) :=
  match cs.takeWhile isDigitChar with
  | [] => none
  | ds => some (digitsToNat ds, cs.dropWhile isDigitChar)

/-- After the `last`/`past` prefix: `\s+(\d+)\s+<unit>` with anything after
(`re.match` only anchors the start, and the trailing `s?` is irrelevant
because nothing is required after it). -/
def numThenUnit (unit : List Char) (rest : List Char) : Option Nat :=
  match dropSpaces1 rest with
  | none => none
  | some r1 =>
    match takeDigits1 r1 with
    | none => none
    | some (n, r2) =>
      match dropSpaces1 r2 with
      | none => none
      | some r3 =>
        match consumeLit unit r3 with
        | none => none
        | some _ => some n

/-- The regexes `(?:last|past)\s+(\d+)\s+days?` / `...weeks?` applied with
`re.match`. -/
def lastPastN (unit : List Char) (cs : List Char) : Option Nat :=
  match consumeLit "last".toList cs with
  | some rest => numThenUnit unit rest
  | none =>
    match consumeLit "past".toList cs with
    | some rest => numThenUnit unit rest
    | none => none

/-- The regex `(\d+)\s+days?\s+ago` applied with `re.match`.  (Consuming the
optional `s` greedily is equivalent to the regex with backtracking: when an
`s` is present but the greedy parse fails, the non-greedy alternative would
have to match `\s` against that `s`, which also fails.) -/
def nDaysAgo (cs : List Char) : Option Nat :=
  match takeDigits1 cs with
  | none => none
  | some (n, r1) =>
    match dropSpaces1 r1 with
    | none => none
    | some r2 =>
      match consumeLit "day".toList r2 with
      | none => none
      | some r3 =>
        let r4 := match r3 with
          | 's' :: t => t
          | _ => r3
        match dropSpaces1 r4 with
        | none => none
        | some r5 =>
          match consumeLit "ago".toList r5 with
          | none => none
          | some _ => some n

/-- The `OverflowError` cases reachable from `parse_relative_date`: the
`timedelta` constructor bound, and a datetime arithmetic result outside
the supported range. -/
inductive PyError where
  /-- `timedelta(days=d)` with `|d| > 999999999`
  (`OverflowError: days=...; must have magnitude <= 999999999`). -/
  | overflowTimedelta (days : Int)
  /-- a datetime result before `datetime.min` or after `datetime.max`
  (`OverflowError: date value out of range`). -/
  | overflowDate
deriving DecidableEq, Repr

deriving instance DecidableEq for Except

/-- `timedelta(days=n)`: the constructor raises `OverflowError` when the
normalized day count exceeds 999999999 in magnitude (`n` is parsed from
digits, hence non-negative). -/
def timedeltaDays (n : Nat) : Except PyError Int :=
  if 999999999 < n then Except.error (PyError.overflowTimedelta (Int.ofNat n))
  else Except.ok (Int.ofNat n)

/-- `timedelta(weeks=n)`: the constructor normalizes weeks to `7*n` days
before the same magnitude check. -/
def timedeltaWeeks (n : Nat) : Except PyError Int :=
  if 999999999 < 7 * n then Except.error (PyError.overflowTimedelta (Int.ofNat (7 * n)))
  else Except.ok (Int.ofNat (7 * n))

/-- `datetime.min`'s date (0001-01-01) as a day count since the Unix epoch. -/
def minEpochDay : Int := -719162

/-- `datetime.max`'s date (9999-12-31) as a day count since the Unix epoch. -/
def maxEpochDay : Int := 2932896

/-- `today - delta` on datetimes: raises `OverflowError` ("date value out
of range") when the result leaves the supported year range 1..9999.
Subtracting a whole number of days keeps the time of day, so on day counts
the check is exactly a range check on the resulting day. -/
def datetimeSubDays (today d : Int) : Except PyError Int :=
  if today - d < minEpochDay ∨ maxEpochDay < today - d then
    Except.error PyError.overflowDate
  else Except.ok (today - d)

/-- `(today - timedelta(days=n)).strftime("%Y-%m-%d")`, with both raise
sites of the source. -/
def subDaysFmt (today : Int) (n : Nat) : Except PyError (Option String) :=
  match timedeltaDays n with
  | Except.error e => Except.error e
  | Except.ok d =>
    match datetimeSubDays today d with
    | Except.error e => Except.error e
    | Except.ok r => Except.ok (some (formatDate r))

/-- `(today - timedelta(weeks=n)).strftime("%Y-%m-%d")`, with both raise
sites of the source. -/
def subWeeksFmt (today : Int) (n : Nat) : Except PyError (Option String) :=
  match timedeltaWeeks n with
  | Except.error e => Except.error e
  | Except.ok d =>
    match datetimeSubDays today d with
    | Except.error e => Except.error e
    | Except.ok r => Except.ok (some (formatDate r))

/-- `parse_relative_date` from `email_agent/tools/__init__.py`.  `today` is
the current local date as a day count since the epoch; `none` models Python
`None`; `Except.error` models the two `OverflowError` raise sites of the
source (the `timedelta` constructor bound for huge parsed offsets, and the
datetime subtraction leaving the supported year range). -/
def parse_relative_date (today : Int) (date_str : Option String) :
    Except PyError (Option String) :=
  match date_str with
  | none => Except.ok none
  | some s0 =>
    if s0 = "" then Except.ok none
    else
      let ds := pyStrip (pyLower s0)
      if matchesYMD ds.toList then Except.ok (some ds)
      else if ds = "today" then Except.ok (some (formatDate today))
      else if ds = "yesterday" then subDaysFmt today 1
      else if ds = "last week" ∨ ds = "past week" ∨ ds = "this week" then
        subDaysFmt today 7
      else if ds = "last month" ∨ ds = "past month" ∨ ds = "this month" then
        subDaysFmt today 30
      else
        match lastPastN "day".toList ds.toList with
        | some n => subDaysFmt today n
        | none =>
          match nDaysAgo ds.toList with
          | some n => subDaysFmt today n
          | none =>
            match lastPastN "week".toList ds.toList with
            | some n => subWeeksFmt today n
            | none => Except.ok (some ds)

/-- The recognized forms of §4.1, as one decidable predicate on the
lower-cased, stripped input: exactly the branch conditions of
`parse_relative_date` other than the final pass-through. -/
def recognizedForm (ds : String) : Bool :=
  matchesYMD ds.toList ||
  ds = "today" || ds = "yesterday" ||
  ds = "last week" || ds = "past week" || ds = "this week" ||
  ds = "last month" || ds = "past month" || ds = "this month" ||
  (lastPastN "day".toList ds.toList).isSome ||
  (nDaysAgo ds.toList).isSome ||
  (lastPastN "week".toList ds.toList).isSome

/-! ## Categorizer and priority scorer -/

/-- The structured classification result (§6 collaborator contract and the
JSON shape requested by `categorize_email_with_llm`). -/
structure CategoryInfo where
  category : String
  is_payment_request : Bool
  is_from_mys : Bool
  urgency : String
  needs_response : Bool
  summary : String
deriving DecidableEq, Repr

/-- The fields of an email record used by the categorizer and the priority
scorer (`sender.email`, `sender.name`, `subject`, `body.plain`, `snippet`,
`labels`). -/
structure Email where
  sender_email : String
  sender_name : String
  subject : String
  body_plain : String
  snippet : String
  labels : List String
deriving DecidableEq, Repr

/-- `categorize_email_with_llm` from `email_agent/tools/__init__.py`.  The
external chat-completion call together with the JSON parse of its response
is embedded as `llm : Option CategoryInfo` — `some info` when the call
succeeds and its response parses, `none` when any exception is raised
(API failure, timeout, malformed response).  The `except` branch of the
source builds the deterministic fallback result. -/
def categorize_email_with_llm (email : Email) (llm : Option CategoryInfo) : CategoryInfo :=
  match llm with
  | some info => info
  | none =>
    { category := "client_communication"
      is_payment_request := false
      is_from_mys := strContains (pyLower email.sender_email) "mys"
      urgency := "medium"
      needs_response := false
      summary := email.subject }

/-- The result of `calculate_priority_with_llm`: score, discrete level,
reasons, and the category info echoed back. -/
structure PriorityResult where
  score : Int
  priority_level : String
  reasons : List String
  category_info : CategoryInfo
deriving DecidableEq, Repr

/-- One conditional `score += delta` statement of the scorer. -/
def scoreStep (cond : Prop) [Decidable cond] (delta s : Int) : Int :=
  if cond then s + delta else s

/-- The urgency adjustment: `+25` at high, `-10` at low, unchanged at medium. -/
def urgencyStep (urgency : String) (s : Int) : Int :=
  if urgency = "high" then s + 25
  else if urgency = "low" then s - 10
  else s

/-- One conditional `reasons.append(r)` statement of the scorer. -/
def reasonStep (cond : Prop) [Decidable cond] (r : String) (rs : List String) : List String :=
  if cond then rs ++ [r] else rs

/-- `calculate_priority_with_llm` from `email_agent/tools/__init__.py`.
The `category_info is None` branch of the source delegates to
`categorize_email_with_llm`; the scoring itself is a pure function of the
record's labels and the category result, embedded here statement by
statement (each Python `if ...: score += d; reasons.append(r)` becomes one
`scoreStep`/`reasonStep` pair, in source order). -/
def calculate_priority_with_llm (email : Email) (category_info : CategoryInfo) :
    PriorityResult :=
  let p1 := category_info.category = "service_request"
  let p2 := category_info.is_payment_request ∧ ¬ category_info.is_from_mys
  let p4 := category_info.needs_response = true
  let p5 := email.labels.contains "IMPORTANT" = true
  let p6 := email.labels.contains "STARRED" = true
  let p7 := email.labels.contains "UNREAD" = true
  let p9 := category_info.category = "promotional" ∨ category_info.category = "spam" ∨
    category_info.category = "automated_notification"
  let score := scoreStep p9 (-40) (scoreStep p7 5 (scoreStep p6 10 (scoreStep p5 10
    (scoreStep p4 15 (urgencyStep category_info.urgency
      (scoreStep p2 20 (scoreStep p1 30 50)))))))
  let reasons := reasonStep p9 "Promotional/automated" (reasonStep p7 "Unread"
    (reasonStep p6 "Starred" (reasonStep p5 "Marked important"
      (reasonStep p4 "Needs response" (reasonStep (category_info.urgency = "high") "High urgency"
        (reasonStep p2 "External payment request"
          (reasonStep p1 "Service/quote request" [])))))))
  let priority_level :=
    if score ≥ 80 then "critical"
    else if score ≥ 65 then "high"
    else if score ≥ 40 then "medium"
    else "low"
  { score := min (max score 0) 100
    priority_level := priority_level
    reasons := reasons
    category_info := category_info }

/-- The raw (pre-clamp) additive score of §4.7, written as the sum of the
independent adjustments the spec lists. -/
def specAdditiveScore (email : Email) (ci : CategoryInfo) : Int :=
  50 + (if ci.category = "service_request" then 30 else 0)
     + (if ci.is_payment_request ∧ ¬ ci.is_from_mys then 20 else 0)
     + (if ci.urgency = "high" then 25 else if ci.urgency = "low" then -10 else 0)
     + (if ci.needs_response then 15 else 0)
     + (if email.labels.contains "IMPORTANT" then 10 else 0)
     + (if email.labels.contains "STARRED" then 10 else 0)
     + (if email.labels.contains "UNREAD" then 5 else 0)
     + (if ci.category = "promotional" ∨ ci.category = "spam" ∨
          ci.category = "automated_notification" then -40 else 0)

/-! ## Query builder (`ElasticsearchSearchTool.run`)

The builder constructs a JSON query for the external document store.  The
query is embedded as an AST (`ESQuery`) mirroring the dict the source
builds; all clause shapes that `run` can produce are covered.  The store
itself is an external collaborator (§4.4/§6), so the AST is given the
semantics that contract documents: an evaluator `evalQuery` over a record,
with boolean must/filter = AND, `should` with `minimum_should_match: 1` =
OR, `wildcard "*x*"` = substring containment, `match` = analyzed token
overlap, `term` = exact equality (membership for array fields). -/

/-- A record as stored in the document store, with the fields the built
queries can touch. -/
structure ESRecord where
  sender_email : String
  sender_name : String
  recipients : List String
  cc : List String
  bcc : List String
  subject : String
  body_plain : String
  snippet : String
  category : String
  date : String
  has_attachments : Bool
  labels : List String
  is_read : Bool
deriving DecidableEq, Repr

/-- String-valued fields a should-clause can target. -/
inductive ESField where
  | senderEmail
  | senderName
  | recipients
  | cc
  | bcc
deriving DecidableEq, Repr

/-- Clauses that occur inside a `should` list in the built queries. -/
inductive ESSimpleClause where
  /-- `{"wildcard": {field: "*needle*"}}` -/
  | wildcardContains (field : ESField) (needle : String)
  /-- `{"match": {field: query}}` -/
  | matchTokens (field : ESField) (query : String)
deriving DecidableEq, Repr

/-- Clauses that occur in the `must` list of the built queries. -/
inductive ESMustClause where
  /-- `{"match_all": {}}` -/
  | matchAll
  /-- `{"multi_match": {"query": q, "fields": [subject, body.plain, snippet], "fuzziness": "AUTO"}}` -/
  | multiMatch (q : String)
  /-- `{"bool": {"should": [...]}}` (with `minimum_should_match` 1, the
  default for a bool query consisting only of should clauses) -/
  | shouldOf (cs : List ESSimpleClause)
deriving DecidableEq, Repr

/-- Clauses that occur in the `filter` list of the built queries. -/
inductive ESFilterClause where
  /-- `{"term": {"category": v}}` -/
  | termCategory (v : String)
  /-- `{"range": {"date": {"gte": ..., "lte": ...}}}` -/
  | dateRange (gte lte : Option String)
  /-- `{"term": {"has_attachments": v}}` -/
  | termHasAttachments (v : Bool)
  /-- `{"term": {"labels": v}}` -/
  | termLabel (v : String)
  /-- `{"term": {"is_read": v}}` -/
  | termIsRead (v : Bool)
deriving DecidableEq, Repr

/-- The query dict built by `ElasticsearchSearchTool.run`. -/
structure ESQuery where
  must : List ESMustClause
  filter : List ESFilterClause
  size : Nat
  sortField : String
  sortOrder : String
deriving DecidableEq, Repr

/-- Tokenizer worker: scan character by character, accumulating the current
alphanumeric run (reversed) in `cur` and emitting it when it ends. -/
def esTokensGo (cur : List Char) : List Char → List (List Char)
  | [] => if cur.isEmpty then [] else [cur.reverse]
  | c :: cs =>
    if isAlnumChar c then esTokensGo (pyLowerChar c :: cur) cs
    else if cur.isEmpty then esTokensGo [] cs
    else cur.reverse :: esTokensGo [] cs

/-- Lower-case analyzer tokens of a string: maximal alphanumeric runs,
case-folded.  Models the store's standard text analysis for `match` queries. -/
def esTokens (cs : List Char) : List (List Char) := esTokensGo [] cs

/-- Value of a string field of a record; array fields are handled in
`evalSimpleClause`. -/
def esFieldStrings (r : ESRecord) : ESField → List String
  | ESField.senderEmail => [r.sender_email]
  | ESField.senderName => [r.sender_name]
  | ESField.recipients => r.recipients
  | ESField.cc => r.cc
  | ESField.bcc => r.bcc

/-- Modelled from the spec: semantics of the store's `wildcard` and `match`
predicates (§4.4/§6 external-collaborator contract — "substring/wildcard
over the address plus exact/partial match over display name").  A wildcard
`*needle*` matches a field whose value contains `needle`; a `match` query
matches when some analyzed token of the query occurs among the field's
tokens.  For array fields, any element may match. -/
def evalSimpleClause (r : ESRecord) : ESSimpleClause → Bool
  | ESSimpleClause.wildcardContains f needle =>
    (esFieldStrings r f).any (fun v => strContains v needle)
  | ESSimpleClause.matchTokens f q =>
    (esFieldStrings r f).any (fun v =>
      (esTokens q.toList).any (fun t => (esTokens v.toList).contains t))

/-- Modelled from the spec: semantics of the full-text `multi_match` clause
(fuzzy multi-field matching over subject/body/snippet, §4.3), approximated
as token overlap with any of the three fields. -/
def evalMustClause (r : ESRecord) : ESMustClause → Bool
  | ESMustClause.matchAll => true
  | ESMustClause.multiMatch q =>
    [r.subject, r.body_plain, r.snippet].any (fun v =>
      (esTokens q.toList).any (fun t => (esTokens v.toList).contains t))
  | ESMustClause.shouldOf cs => cs.any (evalSimpleClause r)

/-- Modelled from the spec: semantics of the exact-term and range filter
predicates (§4.3/§4.4).  Date ranges compare the records' date strings
lexicographically, inclusively on both bounds. -/
def evalFilterClause (r : ESRecord) : ESFilterClause → Bool
  | ESFilterClause.termCategory v => r.category = v
  | ESFilterClause.dateRange gte lte =>
    (match gte with | none => true | some lo => pyStrLe lo r.date) &&
    (match lte with | none => true | some hi => pyStrLe r.date hi)
  | ESFilterClause.termHasAttachments v => r.has_attachments = v
  | ESFilterClause.termLabel v => r.labels.contains v
  | ESFilterClause.termIsRead v => r.is_read = v

/-- Modelled from the spec: a bool query holds iff every `must` clause and
every `filter` clause holds (§4.3: "All predicates are combined with
logical AND"). -/
def evalQuery (q : ESQuery) (r : ESRecord) : Bool :=
  q.must.all (evalMustClause r) && q.filter.all (evalFilterClause r)

/-- Python truthiness of an optional string (`None` and `""` are falsy). -/
def truthyStr : Option String → Option String
  | none => none
  | some s => if s = "" then none else some s

/-- `must` clause contributed by `search_text`. -/
def mustOfSearchText (st : Option String) : List ESMustClause :=
  match truthyStr st with
  | none => []
  | some t => [ESMustClause.multiMatch t]

/-- `must` clause contributed by `sender`: a should of a wildcard
`*sender.lower()*` on `sender.email` and a match on `sender.name`. -/
def mustOfSender (sd : Option String) : List ESMustClause :=
  match truthyStr sd with
  | none => []
  | some s =>
    [ESMustClause.shouldOf
      [ESSimpleClause.wildcardContains ESField.senderEmail (pyLower s),
       ESSimpleClause.matchTokens ESField.senderName s]]

/-- `must` clause contributed by `recipient`: wildcards over recipients,
cc and bcc. -/
def mustOfRecipient (rc : Option String) : List ESMustClause :=
  match truthyStr rc with
  | none => []
  | some s =>
    [ESMustClause.shouldOf
      [ESSimpleClause.wildcardContains ESField.recipients (pyLower s),
       ESSimpleClause.wildcardContains ESField.cc (pyLower s),
       ESSimpleClause.wildcardContains ESField.bcc (pyLower s)]]

/-- `filter` clause contributed by `category`. -/
def filterOfCategory (ct : Option String) : List ESFilterClause :=
  match truthyStr ct with
  | none => []
  | some c => [ESFilterClause.termCategory c]

/-- `filter` clause contributed by the parsed date range (the parsed dates
are truthy-checked exactly as in the source).  The two
`parse_relative_date` calls sit inside `run`'s `try` block: an
`OverflowError` aborts the whole query construction (the `except` handler
returns an error payload instead of a query), so only the non-raising case
builds clauses; the error arms here are outside the modelled happy path
and contribute nothing. -/
def filterOfDates (today : Int) (date_from date_to : Option String) : List ESFilterClause :=
  match parse_relative_date today date_from, parse_relative_date today date_to with
  | Except.ok pfv, Except.ok ptv =>
    (match truthyStr pfv, truthyStr ptv with
     | none, none => []
     | pf, pt => [ESFilterClause.dateRange pf pt])
  | _, _ => []

/-- `filter` clause contributed by `has_attachments`. -/
def filterOfHasAttachments (ha : Option Bool) : List ESFilterClause :=
  match ha with
  | none => []
  | some v => [ESFilterClause.termHasAttachments v]

/-- `filter` clauses contributed by `labels` (one term per label,
upper-cased). -/
def filterOfLabels (lb : Option (List String)) : List ESFilterClause :=
  match lb with
  | none => []
  | some ls =>
    if ls = [] then []
    else ls.map (fun l => ESFilterClause.termLabel (pyUpper l))

/-- `filter` clause contributed by `is_read`. -/
def filterOfIsRead (ir : Option Bool) : List ESFilterClause :=
  match ir with
  | none => []
  | some v => [ESFilterClause.termIsRead v]

/-- The default of the `max_results` parameter in the signature of
`ElasticsearchSearchTool.run`. -/
def search_default_max_results : Nat := 10

/-- The query dict built by `ElasticsearchSearchTool.run` before it is sent
to the store: must clauses in source order (search text, sender,
recipient), `[{"match_all": {}}]` when no must clause was supplied, filter
clauses in source order (category, date range, has_attachments, labels,
is_read), `size = max_results`, sorted by date descending. -/
def buildSearchQuery (today : Int) (search_text sender recipient category
    date_from date_to : Option String) (has_attachments : Option Bool)
    (labels : Option (List String)) (is_read : Option Bool)
    (max_results : Nat) : ESQuery :=
  let must_clauses := mustOfSearchText search_text ++ mustOfSender sender ++
    mustOfRecipient recipient
  let filter_clauses := filterOfCategory category ++
    filterOfDates today date_from date_to ++
    filterOfHasAttachments has_attachments ++ filterOfLabels labels ++
    filterOfIsRead is_read
  { must := if must_clauses = [] then [ESMustClause.matchAll] else must_clauses
    filter := filter_clauses
    size := max_results
    sortField := "date"
    sortOrder := "desc" }

/-! ## Conversation/thread aggregator (`ConversationHistoryTool.run`)

The tool's post-processing of the records the store returned: grouping by
`thread_id` (a Python dict, i.e. first-occurrence key order with in-order
appends), re-sorting each group ascending by `date` (Python `list.sort`
with a string key: a stable ascending sort, embedded as stable insertion
sort), deriving a direction per record, and assembling the summary. -/

/-- The fields of a record used by `ConversationHistoryTool.run`. -/
structure ConvEmail where
  thread_id : String
  date : String
  sender_email : String
deriving DecidableEq, Repr

/-- One step of the grouping loop: append the record to its thread's list,
creating the key on first sight (Python dict insertion-order semantics). -/
def groupStep (gs : List (String × List ConvEmail)) (e : ConvEmail) :
    List (String × List ConvEmail) :=
  if gs.any (fun p => p.1 = e.thread_id) then
    gs.map (fun p => if p.1 = e.thread_id then (p.1, p.2 ++ [e]) else p)
  else gs ++ [(e.thread_id, [e])]

/-- The `threads` dict built by the grouping loop. -/
def groupByThread (results : List ConvEmail) : List (String × List ConvEmail) :=
  results.foldl groupStep []

/-- Stable insertion into a date-sorted list: the new element goes after
every element whose date is `<=` its own only when required, i.e. before
the first strictly-later element; with insertion performed right-to-left
this reproduces Python's stable ascending `list.sort(key=date)`. -/
def insertByDate (e : ConvEmail) : List ConvEmail → List ConvEmail
  | [] => [e]
  | x :: xs => if pyStrLe e.date x.date then e :: x :: xs else x :: insertByDate e xs

/-- Stable ascending sort by `date` (Python `list.sort(key=lambda x: x.get("date", ""))`). -/
def sortByDate : List ConvEmail → List ConvEmail
  | [] => []
  | e :: rest => insertByDate e (sortByDate rest)

/-- The result dict of `ConversationHistoryTool.run`. -/
structure ConvResult where
  contact : String
  total_emails : Nat
  thread_count : Nat
  threads : List (String × List ConvEmail)
  emails : List (ConvEmail × String)
deriving DecidableEq, Repr

/-- `ConversationHistoryTool.run` from `email_agent/tools/__init__.py`,
applied to the records the store returned for the contact: group by
`thread_id`, sort each group ascending by date, tag each record's direction
(`"from_contact"` when the lower-cased contact address occurs in the
lower-cased sender address, else `"to_contact"`), and report totals. -/
def conversationHistoryRun (email_address : String) (results : List ConvEmail) :
    ConvResult :=
  let email_lower := pyLower email_address
  let threads := (groupByThread results).map (fun p => (p.1, sortByDate p.2))
  let emails := results.map (fun e =>
    (e, if strContains (pyLower e.sender_email) email_lower then "from_contact"
        else "to_contact"))
  { contact := email_address
    total_emails := results.length
    thread_count := threads.length
    threads := threads
    emails := emails }

/-! ## Attachment content search (`SearchAttachmentsTool.run`)

The post-processing loop over the candidate records the store returned:
drop irrelevant attachments, find matching attachments by filename or
parsed content (with a ~100-character context window on content matches),
and keep at most `max_results` records. -/

/-- An attachment of a stored record: filename, MIME type and the parsed
text content (`""` models a missing/empty `parsed_content`, both falsy in
Python). -/
structure StoredAttachment where
  filename : String
  mime_type : String
  parsed_content : String
deriving DecidableEq, Repr

/-- A candidate record: its attachments (an absent `attachments` key and an
empty list are both falsy in Python and behave identically). -/
structure AttEmail where
  attachments : List StoredAttachment
deriving DecidableEq, Repr

/-- A matching attachment as the loop annotates it: `match_reason` is
`"filename"` or `"content"`; `content_preview` is set on content matches. -/
structure MatchedAttachment where
  att : StoredAttachment
  match_reason : String
  content_preview : Option String
deriving DecidableEq, Repr

/-- One processed record of the result list. -/
structure AttSearchHit where
  attachments : List StoredAttachment
  matching_attachments : List MatchedAttachment
deriving DecidableEq, Repr

/-- The context window computed on a content match: about 100 characters
before and after the first (case-insensitive) occurrence of the phrase,
wrapped in ellipses. -/
def contentPreview (search_text content : String) : Option String :=
  match firstIndexOfSub (pyLower search_text).toList (pyLower content).toList with
  | none => none
  | some idx =>
    let start := idx - 100
    let stop := min content.length (idx + search_text.length + 100)
    some ("..." ++ String.mk ((content.toList.drop start).take (stop - start)) ++ "...")

/-- Classify one relevant attachment: filename match first, else content
match (only when `parsed_content` is truthy), else no match. -/
def matchAttachment (search_text : String) (att : StoredAttachment) :
    Option MatchedAttachment :=
  if strContains (pyLower att.filename) (pyLower search_text) then
    some { att := att, match_reason := "filename", content_preview := none }
  else if att.parsed_content ≠ "" ∧
      strContains (pyLower att.parsed_content) (pyLower search_text) then
    some { att := att, match_reason := "content",
           content_preview := contentPreview search_text att.parsed_content }
  else none

/-- Process one candidate record: `none` when the record contributes
nothing to the result list (no attachments, or none relevant), otherwise
the record with its relevant attachments and its (possibly empty) matching
list. -/
def processAttEmail (search_text : String) (email : AttEmail) : Option AttSearchHit :=
  if email.attachments = [] then none
  else
    let relevant := email.attachments.filter
      (fun a => tools_is_relevant_attachment a.filename a.mime_type)
    if relevant = [] then none
    else
      some { attachments := relevant
             matching_attachments := relevant.filterMap (matchAttachment search_text) }

/-- The result-assembly loop with its early `break` once `max_results`
records have been collected. -/
def attSearchLoop (search_text : String) (max_results : Nat)
    (acc : List AttSearchHit) : List AttEmail → List AttSearchHit
  | [] => acc
  | e :: rest =>
    let acc2 := match processAttEmail search_text e with
      | some hit => acc ++ [hit]
      | none => acc
    if max_results ≤ acc2.length then acc2
    else attSearchLoop search_text max_results acc2 rest

/-- The post-processing of `SearchAttachmentsTool.run` applied to the
candidate records the store returned. -/
def searchAttachmentsProcess (search_text : String) (max_results : Nat)
    (results : List AttEmail) : List AttSearchHit :=
  attSearchLoop search_text max_results [] results

/-! ## Claim theorems -/

/-- Helper: the `any meaningful word` check of the `attachments.py` copy
splits into the `tools` copy's check plus the `screenshot` test. -/
theorem meaningfulWordsSplit (s : String) :
    meaningful_words_attachments.any (fun w => strContains s w) =
      (meaningful_words_tools.any (fun w => strContains s w) || strContains s "screenshot") := by
  simp [meaningful_words_attachments, meaningful_words_tools, Bool.or_assoc]

/-- C5: both attachment relevance filters are pure functions of
`(filename, mime_type)` evaluating the §4.2 rules in order with first match
winning (empty filename; decorative MIME set; decorative filename patterns;
document-extension allowlist; the image rule; fail-open default), an empty
filename is never relevant whatever the MIME type, and the three concrete
witnesses of §8 behave as stated. -/
theorem C5_attachment_filter_rules :
    (∀ filename mime_type : String,
      tools_is_relevant_attachment filename mime_type =
        ruleChainEval [rule_empty_filename, rule_skip_mime, rule_skip_pattern,
          rule_document_ext, rule_image meaningful_words_tools] true filename mime_type) ∧
    (∀ filename mime_type : String,
      attachments_is_relevant_attachment filename mime_type =
        ruleChainEval [rule_empty_filename, rule_skip_mime, rule_skip_pattern,
          rule_document_ext, rule_image meaningful_words_attachments] true filename mime_type) ∧
    (∀ mime_type : String,
      tools_is_relevant_attachment "" mime_type = false ∧
      attachments_is_relevant_attachment "" mime_type = false) ∧
    tools_is_relevant_attachment "image001.png" "image/png" = false ∧
    tools_is_relevant_attachment "Invoice_2024.pdf" "application/pdf" = true ∧
    tools_is_relevant_attachment "scan_report.png" "image/png" = true ∧
    attachments_is_relevant_attachment "image001.png" "image/png" = false ∧
    attachments_is_relevant_attachment "Invoice_2024.pdf" "application/pdf" = true ∧
    attachments_is_relevant_attachment "scan_report.png" "image/png" = true := by
  refine ⟨?_, ?_, ?_, by decide, by decide, by decide, by decide, by decide, by decide⟩
  · intro filename mime_type
    simp only [tools_is_relevant_attachment, ruleChainEval, rule_empty_filename,
      rule_skip_mime, rule_skip_pattern, rule_document_ext, rule_image]
    split_ifs with h1 h2 h3 h4 h5 h6 <;> try rfl
    · have h7 : ¬ (10 ≤ (pyLower filename).length) := by omega
      simp [h7]
    · have h7 : 10 ≤ (pyLower filename).length := by omega
      simp [h7]
  · intro filename mime_type
    simp only [attachments_is_relevant_attachment, ruleChainEval, rule_empty_filename,
      rule_skip_mime, rule_skip_pattern, rule_document_ext, rule_image]
    split_ifs with h1 h2 h3 h4 h5 h6 <;> try rfl
    · have h7 : ¬ (10 ≤ (pyLower filename).length) := by omega
      simp [h7]
    · have h7 : 10 ≤ (pyLower filename).length := by omega
      simp [h7]
  · intro mime_type
    constructor <;> rfl

/-- C6 (counterexample): `"my_screenshot.png"`/`image/png` satisfies every
hypothesis of the claim (image MIME outside the decorative set, non-empty
filename, no decorative pattern, no allowlisted extension), its lower-cased
filename has length ≥ 10 and contains the meaningful word `screenshot` —
yet the tools filter classifies it NOT relevant, because the word list in
`tools/__init__.py` has no `screenshot` entry. -/
theorem C6_counterexample :
    tools_is_relevant_attachment "my_screenshot.png" "image/png" = false ∧
    pyStartsWith "image/png" "image/" = true ∧
    SKIP_ATTACHMENT_MIMES.contains "image/png" = false ∧
    "my_screenshot.png" ≠ "" ∧
    matchesSkipPattern (pyLower "my_screenshot.png").toList = false ∧
    relevant_extensions.contains (extOf (pyLower "my_screenshot.png")) = false ∧
    10 ≤ (pyLower "my_screenshot.png").length ∧
    strContains (pyLower "my_screenshot.png") "screenshot" = true := by
  refine ⟨by decide, by decide, by decide, by decide, by decide, by decide, by decide, by decide⟩

/-- C6 (amended): for every attachment whose MIME type starts with
`image/` and is not in the decorative MIME set, whose filename is
non-empty, matches no decorative-name pattern and carries no
document-allowlist extension, the tools filter classifies it relevant iff
the lower-cased filename has length ≥ 10 and contains one of the six
meaningful words `invoice, receipt, document, scan, contract, report`
(`screenshot` is not in this implementation's list). -/
theorem C6_tools_image_rule_amended (filename mime_type : String)
    (h1 : pyStartsWith mime_type "image/" = true)
    (h2 : SKIP_ATTACHMENT_MIMES.contains mime_type = false)
    (h3 : filename ≠ "")
    (h4 : matchesSkipPattern (pyLower filename).toList = false)
    (h5 : relevant_extensions.contains (extOf (pyLower filename)) = false) :
    tools_is_relevant_attachment filename mime_type = true ↔
      (10 ≤ (pyLower filename).length ∧
       meaningful_words_tools.any (fun w => strContains (pyLower filename) w) = true) := by
  simp only [tools_is_relevant_attachment, if_neg h3]
  rw [h2, h4, h5, h1]
  simp only [Bool.false_eq_true, if_false, if_true]
  by_cases h6 : (pyLower filename).length < 10
  · have h7 : ¬ (10 ≤ (pyLower filename).length) := by omega
    simp [h6, h7]
  · have h7 : 10 ≤ (pyLower filename).length := by omega
    simp [h6, h7]

/-- C6 (witness): the amended rule applied to `"scan_report.png"`/`image/png`. -/
theorem C6_tools_image_rule_amended_witness :
    tools_is_relevant_attachment "scan_report.png" "image/png" = true :=
  (C6_tools_image_rule_amended "scan_report.png" "image/png" (by decide) (by decide)
    (by decide) (by decide) (by decide)).mpr ⟨by decide, by decide⟩

/-- C10 (counterexample): the two implementations of the relevance filter
disagree: `"screenshot_2024.png"`/`image/png` is not relevant for the
`tools/__init__.py` copy but relevant for the `attachments.py` copy (whose
meaningful-word list also has `screenshot`). -/
theorem C10_counterexample :
    tools_is_relevant_attachment "screenshot_2024.png" "image/png" = false ∧
    attachments_is_relevant_attachment "screenshot_2024.png" "image/png" = true := by
  refine ⟨by decide, by decide⟩

/-- C10 (amended): the two implementations agree on every
`(filename, MIME type)` pair whose lower-cased filename does not contain
`screenshot`; the word-list difference is the only divergence. -/
theorem C10_filters_agree_amended (filename mime_type : String)
    (h : strContains (pyLower filename) "screenshot" = false) :
    tools_is_relevant_attachment filename mime_type =
      attachments_is_relevant_attachment filename mime_type := by
  simp only [tools_is_relevant_attachment, attachments_is_relevant_attachment,
    meaningfulWordsSplit, h, Bool.or_false]

/-- C10 (witness): agreement at `"Invoice_2024.pdf"`/`application/pdf`. -/
theorem C10_filters_agree_amended_witness :
    tools_is_relevant_attachment "Invoice_2024.pdf" "application/pdf" =
      attachments_is_relevant_attachment "Invoice_2024.pdf" "application/pdf" :=
  C10_filters_agree_amended "Invoice_2024.pdf" "application/pdf" (by decide)

/-- Helper: a conditional `score += delta` statement adds
`if cond then delta else 0`. -/
theorem scoreStepEq (p : Prop) [Decidable p] (d s : Int) :
    scoreStep p d s = s + (if p then d else 0) := by
  unfold scoreStep; split_ifs <;> omega

/-- Helper: the urgency adjustment as an addition. -/
theorem urgencyStepEq (u : String) (s : Int) :
    urgencyStep u s = s + (if u = "high" then 25 else if u = "low" then -10 else 0) := by
  unfold urgencyStep; split_ifs <;> omega

/-- Helper: the scorer's returned score is the clamped additive score. -/
theorem calcScoreEq (email : Email) (ci : CategoryInfo) :
    (calculate_priority_with_llm email ci).score =
      min (max (specAdditiveScore email ci) 0) 100 := by
  dsimp only [calculate_priority_with_llm]
  simp only [scoreStepEq, urgencyStepEq, specAdditiveScore]

/-- Helper: the scorer's priority level is the threshold chain applied to
the raw (pre-clamp) additive score. -/
theorem calcLevelEq (email : Email) (ci : CategoryInfo) :
    (calculate_priority_with_llm email ci).priority_level =
      (if specAdditiveScore email ci ≥ 80 then "critical"
       else if specAdditiveScore email ci ≥ 65 then "high"
       else if specAdditiveScore email ci ≥ 40 then "medium"
       else "low") := by
  dsimp only [calculate_priority_with_llm]
  simp only [scoreStepEq, urgencyStepEq, specAdditiveScore]

/-- Helper: the threshold chain on the raw score agrees with the same
thresholds read off the clamped score. -/
theorem levelChainEq (s : Int) :
    ((if s ≥ 80 then "critical" else if s ≥ 65 then "high"
      else if s ≥ 40 then "medium" else ("low" : String)) = "critical" ↔
        80 ≤ min (max s 0) 100) ∧
    ((if s ≥ 80 then "critical" else if s ≥ 65 then "high"
      else if s ≥ 40 then "medium" else ("low" : String)) = "high" ↔
        65 ≤ min (max s 0) 100 ∧ min (max s 0) 100 < 80) ∧
    ((if s ≥ 80 then "critical" else if s ≥ 65 then "high"
      else if s ≥ 40 then "medium" else ("low" : String)) = "medium" ↔
        40 ≤ min (max s 0) 100 ∧ min (max s 0) 100 < 65) ∧
    ((if s ≥ 80 then "critical" else if s ≥ 65 then "high"
      else if s ≥ 40 then "medium" else ("low" : String)) = "low" ↔
        min (max s 0) 100 < 40) := by
  split_ifs <;> refine ⟨?_, ?_, ?_, ?_⟩ <;> simp <;> omega

/-- C1: for every record and category result, the returned score is the
base 50 plus exactly the additive adjustments of §4.7 (+30 service
request; +20 external payment request; +25 high / −10 low urgency; +15
needs response; +10 IMPORTANT; +10 STARRED; +5 UNREAD; −40
promotional/spam/automated notification), clamped to [0,100]; the priority
level read off the returned score satisfies the fixed thresholds
(critical iff ≥ 80, high iff [65,80), medium iff [40,65), low iff < 40);
and the §8 example — service_request, unread, starred, urgency high —
scores 120 clamped to 100 with level critical. -/
theorem C1_priority_scorer (email : Email) (ci : CategoryInfo) :
    ((calculate_priority_with_llm email ci).score =
      min (max (specAdditiveScore email ci) 0) 100) ∧
    ((calculate_priority_with_llm email ci).priority_level = "critical" ↔
      80 ≤ (calculate_priority_with_llm email ci).score) ∧
    ((calculate_priority_with_llm email ci).priority_level = "high" ↔
      65 ≤ (calculate_priority_with_llm email ci).score ∧
        (calculate_priority_with_llm email ci).score < 80) ∧
    ((calculate_priority_with_llm email ci).priority_level = "medium" ↔
      40 ≤ (calculate_priority_with_llm email ci).score ∧
        (calculate_priority_with_llm email ci).score < 65) ∧
    ((calculate_priority_with_llm email ci).priority_level = "low" ↔
      (calculate_priority_with_llm email ci).score < 40) ∧
    (specAdditiveScore
      { sender_email := "client@example.com", sender_name := "Client",
        subject := "Quote request", body_plain := "", snippet := "",
        labels := ["UNREAD", "STARRED"] }
      { category := "service_request", is_payment_request := false,
        is_from_mys := false, urgency := "high", needs_response := false,
        summary := "quote" } = 120) ∧
    ((calculate_priority_with_llm
      { sender_email := "client@example.com", sender_name := "Client",
        subject := "Quote request", body_plain := "", snippet := "",
        labels := ["UNREAD", "STARRED"] }
      { category := "service_request", is_payment_request := false,
        is_from_mys := false, urgency := "high", needs_response := false,
        summary := "quote" }).score = 100) ∧
    ((calculate_priority_with_llm
      { sender_email := "client@example.com", sender_name := "Client",
        subject := "Quote request", body_plain := "", snippet := "",
        labels := ["UNREAD", "STARRED"] }
      { category := "service_request", is_payment_request := false,
        is_from_mys := false, urgency := "high", needs_response := false,
        summary := "quote" }).priority_level = "critical") := by
  refine ⟨calcScoreEq email ci, ?_, ?_, ?_, ?_, by decide, by decide, by decide⟩
  · rw [calcScoreEq email ci, calcLevelEq email ci]
    exact (levelChainEq (specAdditiveScore email ci)).1
  · rw [calcScoreEq email ci, calcLevelEq email ci]
    exact (levelChainEq (specAdditiveScore email ci)).2.1
  · rw [calcScoreEq email ci, calcLevelEq email ci]
    exact (levelChainEq (specAdditiveScore email ci)).2.2.1
  · rw [calcScoreEq email ci, calcLevelEq email ci]
    exact (levelChainEq (specAdditiveScore email ci)).2.2.2

/-- C3 (counterexample): a record categorized `promotional` does NOT always
score ≤ 10 / level low: with an external payment request, high urgency,
needs-response and the IMPORTANT/STARRED/UNREAD labels, the positive
adjustments outweigh the −40 penalty and the scorer returns 95 with level
critical. -/
theorem C3_counterexample :
    ((calculate_priority_with_llm
      { sender_email := "deals@shop.com", sender_name := "Shop",
        subject := "Pay now", body_plain := "", snippet := "",
        labels := ["IMPORTANT", "STARRED", "UNREAD"] }
      { category := "promotional", is_payment_request := true,
        is_from_mys := false, urgency := "high", needs_response := true,
        summary := "promo" }).score = 95) ∧
    ((calculate_priority_with_llm
      { sender_email := "deals@shop.com", sender_name := "Shop",
        subject := "Pay now", body_plain := "", snippet := "",
        labels := ["IMPORTANT", "STARRED", "UNREAD"] }
      { category := "promotional", is_payment_request := true,
        is_from_mys := false, urgency := "high", needs_response := true,
        summary := "promo" }).priority_level = "critical") := by
  refine ⟨by decide, by decide⟩

/-- C3 (amended): a record whose category result is `promotional` scores
≤ 10 with level low provided it carries no positive signal: it is not an
external payment request, its urgency is not high, it does not need a
response, and none of the IMPORTANT/STARRED/UNREAD labels is present. -/
theorem C3_promotional_low_amended (email : Email) (ci : CategoryInfo)
    (hcat : ci.category = "promotional")
    (hpay : ¬ (ci.is_payment_request ∧ ¬ ci.is_from_mys))
    (hurg : ci.urgency ≠ "high")
    (hresp : ci.needs_response = false)
    (himp : email.labels.contains "IMPORTANT" = false)
    (hstar : email.labels.contains "STARRED" = false)
    (hunread : email.labels.contains "UNREAD" = false) :
    (calculate_priority_with_llm email ci).score ≤ 10 ∧
    (calculate_priority_with_llm email ci).priority_level = "low" := by
  have hs : specAdditiveScore email ci ≤ 10 := by
    simp only [specAdditiveScore, hcat, hresp, himp, hstar, hunread]
    rw [if_neg hpay, if_neg hurg]
    simp only [show ("promotional" = "service_request") = False from by simp,
      show ("promotional" = "promotional") = True from by simp, if_false, if_true,
      true_or, Bool.false_eq_true]
    split_ifs <;> norm_num
  constructor
  · rw [calcScoreEq email ci]
    omega
  · rw [calcLevelEq email ci]
    have h80 : ¬ specAdditiveScore email ci ≥ 80 := by omega
    have h65 : ¬ specAdditiveScore email ci ≥ 65 := by omega
    have h40 : ¬ specAdditiveScore email ci ≥ 40 := by omega
    rw [if_neg h80, if_neg h65, if_neg h40]

/-- C3 (witness): the amended statement at a plain promotional record
(no labels, medium urgency, no payment flags): score 10, level low. -/
theorem C3_promotional_low_amended_witness :
    (calculate_priority_with_llm
      { sender_email := "news@shop.com", sender_name := "Shop",
        subject := "Sale", body_plain := "", snippet := "", labels := [] }
      { category := "promotional", is_payment_request := false,
        is_from_mys := false, urgency := "medium", needs_response := false,
        summary := "promo" }).score ≤ 10 ∧
    (calculate_priority_with_llm
      { sender_email := "news@shop.com", sender_name := "Shop",
        subject := "Sale", body_plain := "", snippet := "", labels := [] }
      { category := "promotional", is_payment_request := false,
        is_from_mys := false, urgency := "medium", needs_response := false,
        summary := "promo" }).priority_level = "low" :=
  C3_promotional_low_amended _ _ (by decide) (by decide) (by decide) (by decide)
    (by decide) (by decide) (by decide)

/-- C2 (counterexample): the fallback category constant in the code is
`"client_communication"`, not the literal string `"general correspondence"`
the claim names (the spec's §2 category list uses "general correspondence"
as the prose name of this tag). -/
theorem C2_counterexample :
    (categorize_email_with_llm
      { sender_email := "bob@acme.com", sender_name := "Bob",
        subject := "Hello", body_plain := "", snippet := "", labels := [] }
      none).category = "client_communication" ∧
    (categorize_email_with_llm
      { sender_email := "bob@acme.com", sender_name := "Bob",
        subject := "Hello", body_plain := "", snippet := "", labels := [] }
      none).category ≠ "general correspondence" := by
  refine ⟨by decide, by decide⟩

/-- C2 (amended): when the external classification call fails or its
response cannot be parsed (`llm = none`), the categorizer returns, for
every record, the deterministic fallback: category
`"client_communication"` (the code's tag for general correspondence),
`is_payment_request = false`, `is_from_mys` true iff the lower-cased sender
address contains the own-organization token `"mys"`, urgency `"medium"`,
and `needs_response = false`; the failure is never propagated. -/
theorem C2_categorizer_fallback_amended (email : Email) :
    (categorize_email_with_llm email none).category = "client_communication" ∧
    (categorize_email_with_llm email none).is_payment_request = false ∧
    (categorize_email_with_llm email none).is_from_mys =
      strContains (pyLower email.sender_email) "mys" ∧
    (categorize_email_with_llm email none).urgency = "medium" ∧
    (categorize_email_with_llm email none).needs_response = false := by
  refine ⟨rfl, rfl, rfl, rfl, rfl⟩

theorem lowerFixOfDigit {c : Char} (h : isDigitChar c = true) : pyLowerChar c = c := by
  unfold isDigitChar at h
  simp only [Bool.and_eq_true, decide_eq_true_eq] at h
  unfold pyLowerChar
  rw [if_neg]
  omega

theorem spaceFalseOfDigit {c : Char} (h : isDigitChar c = true) : isSpaceChar c = false := by
  unfold isDigitChar at h
  simp only [Bool.and_eq_true, decide_eq_true_eq] at h
  unfold isSpaceChar
  simp only [Bool.or_eq_false_iff, decide_eq_false_iff_not]
  omega

theorem ymdStripLower (l : List Char) (hm : matchesYMD l = true) :
    (((l.map pyLowerChar).dropWhile isSpaceChar).reverse.dropWhile isSpaceChar).reverse = l := by
  unfold matchesYMD at hm
  split at hm
  case h_1 a b c d e f g h i j =>
    simp only [Bool.and_eq_true, decide_eq_true_eq] at hm
    obtain ⟨⟨⟨⟨⟨⟨⟨⟨⟨ha, hb⟩, hc⟩, hd⟩, he⟩, hf⟩, hg⟩, hh⟩, hi⟩, hj⟩ := hm
    subst he hh
    rw [List.map_cons, List.map_cons, List.map_cons, List.map_cons, List.map_cons,
      List.map_cons, List.map_cons, List.map_cons, List.map_cons, List.map_cons,
      List.map_nil,
      lowerFixOfDigit ha, lowerFixOfDigit hb, lowerFixOfDigit hc, lowerFixOfDigit hd,
      lowerFixOfDigit hf, lowerFixOfDigit hg, lowerFixOfDigit hi, lowerFixOfDigit hj]
    have hda : isSpaceChar a = false := spaceFalseOfDigit ha
    have hdj : isSpaceChar j = false := spaceFalseOfDigit hj
    have hdash : pyLowerChar '-' = '-' := by decide
    rw [hdash]
    simp [List.dropWhile_cons, hda, hdj]
  case h_2 => simp at hm

theorem subDaysFmtNeOkNone (today : Int) (n : Nat) :
    subDaysFmt today n ≠ Except.ok none := by
  unfold subDaysFmt timedeltaDays datetimeSubDays
  intro h
  (repeat' split at h) <;> simp_all

theorem subWeeksFmtNeOkNone (today : Int) (n : Nat) :
    subWeeksFmt today n ≠ Except.ok none := by
  unfold subWeeksFmt timedeltaWeeks datetimeSubDays
  intro h
  (repeat' split at h) <;> simp_all

theorem subDaysFmtOk (today : Int) (n : Nat) (h1 : n ≤ 999999999)
    (h2 : minEpochDay ≤ today - n) (h3 : today - n ≤ maxEpochDay) :
    subDaysFmt today n = Except.ok (some (formatDate (today - n))) := by
  unfold subDaysFmt timedeltaDays datetimeSubDays
  simp only [minEpochDay, maxEpochDay] at h2 h3
  rw [if_neg (by omega)]
  dsimp only
  rw [if_neg (by simp only [minEpochDay, maxEpochDay, Int.ofNat_eq_natCast]; omega)]
  rfl

theorem parseNoneIff (today : Int) (ds : Option String) :
    parse_relative_date today ds = Except.ok none ↔ ds = none ∨ ds = some "" := by
  cases ds with
  | none => simp [parse_relative_date]
  | some s =>
    by_cases hs : s = ""
    · subst hs; simp [parse_relative_date]
    · simp only [parse_relative_date, if_neg hs]
      constructor
      · intro h
        exfalso
        (repeat' split at h) <;>
          simp_all [subDaysFmtNeOkNone, subWeeksFmtNeOkNone]
      · intro h
        rcases h with h | h <;> simp_all

theorem parseYMDPass (today : Int) (s : String) (hm : matchesYMD s.toList = true) :
    parse_relative_date today (some s) = Except.ok (some s) := by
  have hfix : pyStrip (pyLower s) = s := by
    unfold pyStrip pyLower
    have : (String.mk (s.toList.map pyLowerChar)).toList = s.toList.map pyLowerChar := rfl
    rw [this, ymdStripLower s.toList hm]
    cases s
    rfl
  have hne : s ≠ "" := by
    intro he
    subst he
    simp [matchesYMD] at hm
  simp only [parse_relative_date, if_neg hne, hfix, hm, if_true]

theorem parseUnrecognized (today : Int) (s : String) (hne : s ≠ "")
    (hur : recognizedForm (pyStrip (pyLower s)) = false) :
    parse_relative_date today (some s) = Except.ok (some (pyStrip (pyLower s))) := by
  unfold recognizedForm at hur
  simp only [Bool.or_eq_false_iff, decide_eq_false_iff_not] at hur
  obtain ⟨⟨⟨⟨⟨⟨⟨⟨⟨⟨⟨h1, h2⟩, h3⟩, h4⟩, h5⟩, h6⟩, h7⟩, h8⟩, h9⟩, h10⟩, h11⟩, h12⟩ := hur
  have e10 : lastPastN "day".toList (pyStrip (pyLower s)).toList = none := by
    rw [← Option.not_isSome_iff_eq_none, h10]; simp
  have e11 : nDaysAgo (pyStrip (pyLower s)).toList = none := by
    rw [← Option.not_isSome_iff_eq_none, h11]; simp
  have e12 : lastPastN "week".toList (pyStrip (pyLower s)).toList = none := by
    rw [← Option.not_isSome_iff_eq_none, h12]; simp
  simp only [parse_relative_date, if_neg hne, h1, Bool.false_eq_true, if_false,
    if_neg h2, if_neg h3]
  rw [if_neg (by tauto), if_neg (by tauto), e10, e11, e12]

theorem parseErrOverflow (today : Int) (ds : Option String) (e : PyError)
    (h : parse_relative_date today ds = Except.error e) :
    (∃ d : Int, e = PyError.overflowTimedelta d) ∨ e = PyError.overflowDate := by
  cases e with
  | overflowTimedelta d => exact Or.inl ⟨d, rfl⟩
  | overflowDate => exact Or.inr rfl

/-- C4 (counterexample): two clauses of the claim fail on the code.
Verbatim return: an unrecognized input is lower-cased (and stripped)
before matching and returned in that processed form, so `"HELLO"` comes
back as `"hello"`.  Totality: the date arithmetic raises `OverflowError` —
`"last 9999999999 days"` overflows the `timedelta` constructor
(days must have magnitude ≤ 999999999) and `"last 800000 days"` puts the
subtraction result before `datetime.min` (year 1). -/
theorem C4_counterexample :
    parse_relative_date 20089 (some "HELLO") = Except.ok (some "hello") ∧
    parse_relative_date 20089 (some "HELLO") ≠ Except.ok (some "HELLO") ∧
    recognizedForm (pyStrip (pyLower "HELLO")) = false ∧
    parse_relative_date 20089 (some "last 9999999999 days") =
      Except.error (PyError.overflowTimedelta 9999999999) ∧
    parse_relative_date 20089 (some "last 800000 days") =
      Except.error PyError.overflowDate := by
  refine ⟨by decide, by decide, by decide, by decide, by decide⟩

/-- C4 (amended): every input has a defined outcome — a value, or an
`OverflowError` from the date arithmetic (the `timedelta` constructor
bound of 999999999 days, weeks counted as 7 days each, or a result
outside the supported year range 1..9999); within those bounds the
day-offset arithmetic returns normally.  The normalizer returns an absent
value iff the input is absent or the empty string; an input already of
the form `YYYY-MM-DD` is returned unchanged (so normalization is
idempotent on canonical dates); and every non-empty input matching none
of the recognized forms is returned lower-cased and whitespace-stripped
but otherwise verbatim. -/
theorem C4_date_normalizer_amended (today : Int) (ds : Option String) :
    (parse_relative_date today ds = Except.ok none ↔ ds = none ∨ ds = some "") ∧
    (∀ s : String, ds = some s → matchesYMD s.toList = true →
      parse_relative_date today ds = Except.ok (some s)) ∧
    (∀ s : String, ds = some s → s ≠ "" →
      recognizedForm (pyStrip (pyLower s)) = false →
      parse_relative_date today ds = Except.ok (some (pyStrip (pyLower s)))) ∧
    (∀ e : PyError, parse_relative_date today ds = Except.error e →
      (∃ d : Int, e = PyError.overflowTimedelta d) ∨ e = PyError.overflowDate) ∧
    (∀ n : Nat, n ≤ 999999999 → minEpochDay ≤ today - n → today - n ≤ maxEpochDay →
      subDaysFmt today n = Except.ok (some (formatDate (today - n)))) := by
  refine ⟨parseNoneIff today ds, ?_, ?_, parseErrOverflow today ds, subDaysFmtOk today⟩
  · intro s hds hm
    subst hds
    exact parseYMDPass today s hm
  · intro s hds hne hur
    subst hds
    exact parseUnrecognized today s hne hur

/-- C4 (witness): the amended statement applied at concrete inputs — a
canonical date passes through unchanged, an unrecognized mixed-case input
comes back lower-cased/stripped, an overflow error is classified, and an
in-bounds offset returns normally. -/
theorem C4_date_normalizer_amended_witness :
    parse_relative_date 20089 (some "2024-01-02") = Except.ok (some "2024-01-02") ∧
    parse_relative_date 20089 (some " Not A Date ") =
      Except.ok (some (pyStrip (pyLower " Not A Date "))) ∧
    ((∃ d : Int, PyError.overflowDate = PyError.overflowTimedelta d) ∨
      PyError.overflowDate = PyError.overflowDate) ∧
    subDaysFmt 20089 3 = Except.ok (some (formatDate (20089 - (3 : Nat)))) :=
  ⟨(C4_date_normalizer_amended 20089 (some "2024-01-02")).2.1 "2024-01-02" rfl (by decide),
   (C4_date_normalizer_amended 20089 (some " Not A Date ")).2.2.1 " Not A Date " rfl
     (by decide) (by decide),
   (C4_date_normalizer_amended 20089 (some "last 800000 days")).2.2.2.1
     PyError.overflowDate (by decide),
   (C4_date_normalizer_amended 20089 none).2.2.2.2 3 (by decide) (by decide) (by decide)⟩


/-- Helper: the query built by `ElasticsearchSearchTool.run` evaluates as
the conjunction of the clauses each supplied filter contributes. -/
theorem evalBuildDecomp (today : Int) (st sd rc ct df dt : Option String)
    (ha : Option Bool) (lb : Option (List String)) (ir : Option Bool)
    (mx : Nat) (r : ESRecord) :
    evalQuery (buildSearchQuery today st sd rc ct df dt ha lb ir mx) r =
      ((mustOfSearchText st).all (evalMustClause r) &&
       (mustOfSender sd).all (evalMustClause r) &&
       (mustOfRecipient rc).all (evalMustClause r) &&
       (filterOfCategory ct).all (evalFilterClause r) &&
       (filterOfDates today df dt).all (evalFilterClause r) &&
       (filterOfHasAttachments ha).all (evalFilterClause r) &&
       (filterOfLabels lb).all (evalFilterClause r) &&
       (filterOfIsRead ir).all (evalFilterClause r)) := by
  simp only [evalQuery, buildSearchQuery]
  by_cases h : mustOfSearchText st ++ mustOfSender sd ++ mustOfRecipient rc = []
  · rw [if_pos h]
    simp only [List.append_eq_nil] at h
    simp [h.1.1, h.1.2, h.2, List.all_append, Bool.and_assoc, evalMustClause]
  · rw [if_neg h]
    simp [List.all_append, Bool.and_assoc]

/-- C7: the Query Builder AND-combines every supplied filter (the built
query evaluates as the conjunction of the per-filter clauses); an empty
request builds `match_all` with no filters and matches every record; a
request with only `sender="acme.com"` matches a record whose sender
address contains `acme.com` and excludes one that doesn't; results are
requested sorted by the timestamp field descending; and the documented
`max_results` default is 10. -/
theorem C7_query_builder :
    (∀ (today : Int) (r : ESRecord),
      evalQuery (buildSearchQuery today none none none none none none none none none
        search_default_max_results) r = true) ∧
    (∀ today : Int,
      buildSearchQuery today none none none none none none none none none
          search_default_max_results =
        { must := [ESMustClause.matchAll], filter := [], size := 10,
          sortField := "date", sortOrder := "desc" }) ∧
    (∀ (today : Int) (st sd rc ct df dt : Option String) (ha : Option Bool)
        (lb : Option (List String)) (ir : Option Bool) (mx : Nat) (r : ESRecord),
      evalQuery (buildSearchQuery today st sd rc ct df dt ha lb ir mx) r =
        ((mustOfSearchText st).all (evalMustClause r) &&
         (mustOfSender sd).all (evalMustClause r) &&
         (mustOfRecipient rc).all (evalMustClause r) &&
         (filterOfCategory ct).all (evalFilterClause r) &&
         (filterOfDates today df dt).all (evalFilterClause r) &&
         (filterOfHasAttachments ha).all (evalFilterClause r) &&
         (filterOfLabels lb).all (evalFilterClause r) &&
         (filterOfIsRead ir).all (evalFilterClause r))) ∧
    (evalQuery (buildSearchQuery 20089 none (some "acme.com") none none none none
        none none none 10)
      { sender_email := "bob@acme.com", sender_name := "Bob", recipients := [],
        cc := [], bcc := [], subject := "", body_plain := "", snippet := "",
        category := "", date := "", has_attachments := false, labels := [],
        is_read := false } = true) ∧
    (evalQuery (buildSearchQuery 20089 none (some "acme.com") none none none none
        none none none 10)
      { sender_email := "bob@other.org", sender_name := "Bob Jones", recipients := [],
        cc := [], bcc := [], subject := "", body_plain := "", snippet := "",
        category := "", date := "", has_attachments := false, labels := [],
        is_read := false } = false) ∧
    (∀ (today : Int) (st sd rc ct df dt : Option String) (ha : Option Bool)
        (lb : Option (List String)) (ir : Option Bool) (mx : Nat),
      (buildSearchQuery today st sd rc ct df dt ha lb ir mx).sortField = "date" ∧
      (buildSearchQuery today st sd rc ct df dt ha lb ir mx).sortOrder = "desc" ∧
      (buildSearchQuery today st sd rc ct df dt ha lb ir mx).size = mx) ∧
    search_default_max_results = 10 := by
  refine ⟨?_, fun _ => rfl, evalBuildDecomp, by decide, by decide,
    fun _ _ _ _ _ _ _ _ _ _ _ => ⟨rfl, rfl, rfl⟩, rfl⟩
  intro today r
  rfl

theorem listLeTotal : ∀ a b : List Char, listLe a b = true ∨ listLe b a = true
  | [], _ => Or.inl rfl
  | _ :: _, [] => Or.inr rfl
  | a :: as, b :: bs => by
    unfold listLe
    by_cases h1 : a.toNat < b.toNat
    · left; simp [h1]
    · by_cases h2 : b.toNat < a.toNat
      · right; simp [h2, h1]
      · have h3 := listLeTotal as bs
        simp [h1, h2]
        tauto

theorem listLeTrans : ∀ a b c : List Char,
    listLe a b = true → listLe b c = true → listLe a c = true
  | [], _, _ => fun _ _ => rfl
  | _ :: _, [], _ => fun h _ => by simp [listLe] at h
  | _ :: _, _ :: _, [] => fun _ h => by simp [listLe] at h
  | a :: as, b :: bs, c :: cs => fun h1 h2 => by
    unfold listLe at h1 h2 ⊢
    by_cases hab : a.toNat < b.toNat <;> by_cases hbc : b.toNat < c.toNat <;>
      by_cases hba : b.toNat < a.toNat <;> by_cases hcb : c.toNat < b.toNat <;>
      simp_all <;>
      first
        | omega
        | (have hac : ¬ a.toNat < c.toNat := by omega
           have hca : ¬ c.toNat < a.toNat := by omega
           simp [hac, hca]
           first
             | exact listLeTrans as bs cs (by simp_all) (by simp_all)
             | exact ⟨by omega, listLeTrans as bs cs (by simp_all) (by simp_all)⟩)

theorem memInsertByDate (e : ConvEmail) : ∀ (l : List ConvEmail) (b : ConvEmail),
    b ∈ insertByDate e l → b = e ∨ b ∈ l
  | [], b, hb => Or.inl (by simpa [insertByDate] using hb)
  | x :: xs, b, hb => by
    unfold insertByDate at hb
    by_cases h : pyStrLe e.date x.date = true
    · rw [if_pos h] at hb
      rcases List.mem_cons.mp hb with hb | hb
      · exact Or.inl hb
      · exact Or.inr hb
    · rw [if_neg h] at hb
      rcases List.mem_cons.mp hb with hb | hb
      · exact Or.inr (by simp [hb])
      · rcases memInsertByDate e xs b hb with hb2 | hb2
        · exact Or.inl hb2
        · exact Or.inr (List.mem_cons_of_mem x hb2)

theorem insertByDateSorted (e : ConvEmail) (l : List ConvEmail)
    (hl : l.Pairwise (fun a b => pyStrLe a.date b.date = true)) :
    (insertByDate e l).Pairwise (fun a b => pyStrLe a.date b.date = true) := by
  induction l with
  | nil => simp [insertByDate]
  | cons x xs ih =>
    rw [List.pairwise_cons] at hl
    unfold insertByDate
    by_cases h : pyStrLe e.date x.date = true
    · rw [if_pos h]
      refine List.Pairwise.cons ?_ (List.Pairwise.cons hl.1 hl.2)
      intro b hb
      rcases List.mem_cons.mp hb with hb | hb
      · subst hb; exact h
      · exact listLeTrans _ _ _ h (hl.1 b hb)
    · rw [if_neg h]
      refine List.Pairwise.cons ?_ (ih hl.2)
      intro b hb
      have hxe : pyStrLe x.date e.date = true := by
        rcases listLeTotal e.date.toList x.date.toList with ht | ht
        · exact absurd ht h
        · exact ht
      rcases memInsertByDate e xs b hb with hb2 | hb2
      · subst hb2; exact hxe
      · exact hl.1 b hb2

theorem sortByDateSorted : ∀ l : List ConvEmail,
    (sortByDate l).Pairwise (fun a b => pyStrLe a.date b.date = true)
  | [] => List.Pairwise.nil
  | e :: rest => insertByDateSorted e (sortByDate rest) (sortByDateSorted rest)

theorem mapFstGroupStepSame (gs : List (String × List ConvEmail)) (e : ConvEmail) :
    (gs.map (fun p => if p.1 = e.thread_id then (p.1, p.2 ++ [e]) else p)).map Prod.fst =
      gs.map Prod.fst := by
  rw [List.map_map]
  apply List.map_congr_left
  intro p _
  by_cases hp : p.1 = e.thread_id <;> simp [hp]

theorem keysGroupStep (gs : List (String × List ConvEmail)) (e : ConvEmail) :
    ((groupStep gs e).map Prod.fst).toFinset =
      ((gs.map Prod.fst).toFinset : Finset String) ∪ {e.thread_id} := by
  unfold groupStep
  split_ifs with h
  · have hm : e.thread_id ∈ gs.map Prod.fst := by
      rcases List.any_eq_true.mp h with ⟨p, hp, he⟩
      simp only [decide_eq_true_eq] at he
      exact List.mem_map.mpr ⟨p, hp, he⟩
    rw [mapFstGroupStepSame]
    ext x
    simp only [Finset.mem_union, Finset.mem_singleton, List.mem_toFinset]
    constructor
    · exact Or.inl
    · rintro (hx | hx)
      · exact hx
      · subst hx; exact hm
  · simp [List.map_append]

theorem keysGroupStepNodup (gs : List (String × List ConvEmail)) (e : ConvEmail)
    (h : (gs.map Prod.fst).Nodup) : ((groupStep gs e).map Prod.fst).Nodup := by
  unfold groupStep
  split_ifs with ha
  · rw [mapFstGroupStepSame]; exact h
  · rw [List.map_append]
    simp only [List.nodup_append, List.map_cons, List.map_nil]
    refine ⟨h, List.nodup_singleton _, ?_⟩
    intro x hx
    simp only [List.mem_singleton]
    intro he
    subst he
    rcases List.mem_map.mp hx with ⟨p, hp, hfst⟩
    have : gs.any (fun p => p.1 = e.thread_id) = true :=
      List.any_eq_true.mpr ⟨p, hp, by simp [hfst]⟩
    exact ha this

theorem foldlKeysFinset : ∀ (l : List ConvEmail) (gs : List (String × List ConvEmail)),
    (((l.foldl groupStep gs).map Prod.fst).toFinset : Finset String) =
      (gs.map Prod.fst).toFinset ∪ (l.map (fun e => e.thread_id)).toFinset
  | [], gs => by simp
  | e :: l, gs => by
    rw [List.foldl_cons, foldlKeysFinset l (groupStep gs e), keysGroupStep]
    simp only [List.map_cons, List.toFinset_cons]
    ext x
    simp only [Finset.mem_union, Finset.mem_singleton, Finset.mem_insert]
    tauto

theorem foldlKeysNodup : ∀ (l : List ConvEmail) (gs : List (String × List ConvEmail)),
    (gs.map Prod.fst).Nodup → (((l.foldl groupStep gs).map Prod.fst)).Nodup
  | [], _, h => h
  | e :: l, gs, h => by
    rw [List.foldl_cons]
    exact foldlKeysNodup l (groupStep gs e) (keysGroupStepNodup gs e h)

theorem threadCountEq (results : List ConvEmail) :
    (groupByThread results).length =
      ((results.map (fun e => e.thread_id)).toFinset).card := by
  have hn : ((groupByThread results).map Prod.fst).Nodup :=
    foldlKeysNodup results [] (by simp)
  have hk : ((groupByThread results).map Prod.fst).toFinset =
      (results.map (fun e => e.thread_id)).toFinset := by
    rw [groupByThread, foldlKeysFinset results []]
    simp
  calc (groupByThread results).length
      = ((groupByThread results).map Prod.fst).length := (List.length_map _ _).symm
    _ = ((groupByThread results).map Prod.fst).toFinset.card :=
        (List.toFinset_card_of_nodup hn).symm
    _ = ((results.map (fun e => e.thread_id)).toFinset).card := by rw [hk]

/-- C8 (counterexample): with sender address `"Bob@ACME.com"` and contact
`"acme.com"`, the tool reports direction `from_contact` (it lower-cases the
sender before the containment test), while the lower-cased contact is NOT
contained in the raw sender address — refuting the claim's iff as stated. -/
theorem C8_counterexample :
    (conversationHistoryRun "acme.com"
      [{ thread_id := "t1", date := "2024-01-01", sender_email := "Bob@ACME.com" }]).emails =
      [({ thread_id := "t1", date := "2024-01-01", sender_email := "Bob@ACME.com" },
        "from_contact")] ∧
    strContains "Bob@ACME.com" (pyLower "acme.com") = false := by
  refine ⟨by decide, by decide⟩

/-- C8 (amended): for every contact and store result list, the Thread
Aggregator reports `total_emails` = number of records, `thread_count` =
number of distinct conversation ids, sorts every group ascending by
timestamp, sets direction `from_contact` iff the lower-cased contact is
contained in the LOWER-CASED sender address (the amendment), and a contact
with no matching records yields zero totals and an empty mapping, not an
error. -/
theorem C8_thread_aggregator_amended (contact : String) (results : List ConvEmail) :
    (conversationHistoryRun contact results).total_emails = results.length ∧
    (conversationHistoryRun contact results).thread_count =
      ((results.map (fun e => e.thread_id)).toFinset).card ∧
    (∀ p ∈ (conversationHistoryRun contact results).threads,
      p.2.Pairwise (fun a b => pyStrLe a.date b.date = true)) ∧
    (∀ q ∈ (conversationHistoryRun contact results).emails,
      q.2 = "from_contact" ↔
        strContains (pyLower q.1.sender_email) (pyLower contact) = true) ∧
    (results = [] → (conversationHistoryRun contact results).total_emails = 0 ∧
      (conversationHistoryRun contact results).threads = []) := by
  refine ⟨rfl, ?_, ?_, ?_, ?_⟩
  · show ((groupByThread results).map (fun p => (p.1, sortByDate p.2))).length = _
    rw [List.length_map]
    exact threadCountEq results
  · intro p hp
    rcases List.mem_map.mp hp with ⟨q, _, rfl⟩
    exact sortByDateSorted q.2
  · intro q hq
    rcases List.mem_map.mp hq with ⟨e, _, rfl⟩
    dsimp only
    by_cases h : strContains (pyLower e.sender_email) (pyLower contact) = true
    · rw [if_pos h]
      simp [h]
    · rw [if_neg h]
      constructor
      · intro hc
        exact absurd hc (by decide)
      · intro hc
        exact absurd hc h
  · intro h
    subst h
    exact ⟨rfl, rfl⟩

/-- C8 (witness): the amended statement at concrete inputs — the empty
result list gives zero totals and an empty mapping, and a record whose
sender contains the contact is tagged `from_contact`. -/
theorem C8_thread_aggregator_amended_witness :
    ((conversationHistoryRun "acme.com" ([] : List ConvEmail)).total_emails = 0 ∧
     (conversationHistoryRun "acme.com" ([] : List ConvEmail)).threads = []) ∧
    ((({ thread_id := "t1", date := "2024-01-01", sender_email := "x@acme.com" } : ConvEmail),
       "from_contact").2 = "from_contact" ↔
      strContains
        (pyLower ({ thread_id := "t1", date := "2024-01-01", sender_email := "x@acme.com" } : ConvEmail).sender_email)
        (pyLower "acme.com") = true) :=
  ⟨(C8_thread_aggregator_amended "acme.com" []).2.2.2.2 rfl,
   (C8_thread_aggregator_amended "acme.com"
      [{ thread_id := "t1", date := "2024-01-01", sender_email := "x@acme.com" }]).2.2.2.1
     ({ thread_id := "t1", date := "2024-01-01", sender_email := "x@acme.com" }, "from_contact")
     (by decide)⟩

/-- Helper: `processAttEmail` only produces hits with a non-empty relevant
attachment list. -/
theorem processAttEmailNonEmpty (st : String) (e : AttEmail) (hit : AttSearchHit)
    (h : processAttEmail st e = some hit) : hit.attachments ≠ [] := by
  simp only [processAttEmail] at h
  by_cases h1 : e.attachments = []
  · rw [if_pos h1] at h
    exact absurd h (by simp)
  · rw [if_neg h1] at h
    by_cases h2 : e.attachments.filter
        (fun a => tools_is_relevant_attachment a.filename a.mime_type) = []
    · rw [if_pos h2] at h
      exact absurd h (by simp)
    · rw [if_neg h2] at h
      injection h with h3
      subst h3
      exact h2

/-- Helper: every record in the loop's output (beyond the accumulator) has
at least one relevant attachment. -/
theorem attSearchLoopNonEmpty (st : String) (mx : Nat) :
    ∀ (results : List AttEmail) (acc : List AttSearchHit),
      (∀ h ∈ acc, h.attachments ≠ []) →
      ∀ h ∈ attSearchLoop st mx acc results, h.attachments ≠ []
  | [], acc, hacc => hacc
  | e :: rest, acc, hacc => by
    intro h hmem
    unfold attSearchLoop at hmem
    rcases hp : processAttEmail st e with _ | hit
    · rw [hp] at hmem
      dsimp only at hmem
      split at hmem
      · exact hacc h hmem
      · exact attSearchLoopNonEmpty st mx rest acc hacc h hmem
    · rw [hp] at hmem
      dsimp only at hmem
      have hacc2 : ∀ x ∈ acc ++ [hit], x.attachments ≠ [] := by
        intro x hx
        rcases List.mem_append.mp hx with hx | hx
        · exact hacc x hx
        · rw [List.mem_singleton.mp hx]
          exact processAttEmailNonEmpty st e hit hp
      split at hmem
      · exact hacc2 h hmem
      · exact attSearchLoopNonEmpty st mx rest (acc ++ [hit]) hacc2 h hmem

/-- C9: the Attachment Content Search excludes every candidate record with
no relevant attachment after filtering (every returned record has at least
one); on the §8 scenario — decorative `logo.png` plus relevant
`contract.pdf` whose parsed content contains "net 30" — a search for
"net 30" returns only the contract among the matching attachments, tagged
`match_reason="content"` with a non-empty context window containing
"net 30"; and a record whose relevant attachment matches neither filename
nor content is still returned, with an empty matching list. -/
theorem C9_attachment_content_search :
    (∀ (st : String) (mx : Nat) (results : List AttEmail) (hit : AttSearchHit),
      hit ∈ searchAttachmentsProcess st mx results → hit.attachments ≠ []) ∧
    (searchAttachmentsProcess "net 30" 10
      [{ attachments :=
          [{ filename := "logo.png", mime_type := "image/png", parsed_content := "" },
           { filename := "contract.pdf", mime_type := "application/pdf",
             parsed_content := "Payment terms: net 30 days from receipt." }] }] =
      [{ attachments :=
          [{ filename := "contract.pdf", mime_type := "application/pdf",
             parsed_content := "Payment terms: net 30 days from receipt." }],
         matching_attachments :=
          [{ att :=
              { filename := "contract.pdf", mime_type := "application/pdf",
                parsed_content := "Payment terms: net 30 days from receipt." },
             match_reason := "content",
             content_preview := some "...Payment terms: net 30 days from receipt...." }] }]) ∧
    (strContains "...Payment terms: net 30 days from receipt...." "net 30" = true) ∧
    ("...Payment terms: net 30 days from receipt...." ≠ "") ∧
    (searchAttachmentsProcess "net 30" 10
      [{ attachments :=
          [{ filename := "report.pdf", mime_type := "application/pdf",
             parsed_content := "hello world" }] }] =
      [{ attachments :=
          [{ filename := "report.pdf", mime_type := "application/pdf",
             parsed_content := "hello world" }],
         matching_attachments := [] }]) := by
  refine ⟨?_, by decide, by decide, by decide, by decide⟩
  intro st mx results hit hmem
  exact attSearchLoopNonEmpty st mx results [] (by simp) hit hmem

/-- C9 (witness): the exclusion invariant applied at the concrete
one-record input of the no-match scenario. -/
theorem C9_attachment_content_search_witness :
    ({ attachments :=
        [{ filename := "report.pdf", mime_type := "application/pdf",
           parsed_content := "hello world" }],
       matching_attachments := [] } : AttSearchHit).attachments ≠ [] :=
  C9_attachment_content_search.1 "net 30" 10
    [{ attachments :=
        [{ filename := "report.pdf", mime_type := "application/pdf",
           parsed_content := "hello world" }] }] _ (by decide)
